import Mathlib

/-!
# Verification of the remote agent invocation gateway

Shallow embedding of `05-hosting-a2a/agents/orchestrator.py` from the
Multi-Agent-Collaboration repository, and proofs of the specification's
claims about it.

External collaborators (SSM parameter store, Cognito secret store, the
identity provider `reauthenticate_user`, the A2A card resolver and the
remote agent's event stream) are modelled as an oracle environment `Env`
holding each collaborator's outcome for the current call; the module's
process-wide mutable cache dictionary `_cache` is modelled as an explicit
`Cache` record threaded through every function. Wall-clock time spent in
the two network phases (card fetch, message exchange) is modelled as
natural-number durations supplied by the environment, and each function
returns the elapsed time it consumed so that the timeout claims are
statable.
-/

namespace Orchestrator

/-- `DEFAULT_TIMEOUT = 15` (orchestrator.py line 22), the overall httpx
client timeout. -/
def DEFAULT_TIMEOUT : Nat := 15

/-- `AGENT_TIMEOUT = 10` (orchestrator.py line 23), the deadline of the
`asyncio.timeout(AGENT_TIMEOUT)` block around the send loop (line 116). -/
def AGENT_TIMEOUT : Nat := 10

/-- The literal `timeout=5.0` of `asyncio.wait_for(resolver.get_agent_card(),
timeout=5.0)` (orchestrator.py line 103). -/
def CARD_FETCH_TIMEOUT : Nat := 5

/-- The literal `25.0` of `asyncio.timeout(25.0)` in `invoke_agent`
(orchestrator.py line 177). -/
def ORCHESTRATOR_TIMEOUT : Nat := 25

/-- A Python exception as observed by the two `except` clauses of
`send_agent_message`: either `asyncio.TimeoutError`, or any other
`Exception` carrying its `str(e)` text. -/
inductive PyExc where
  | timeoutError : PyExc
  | other : String → PyExc
deriving DecidableEq, Repr

/-- One event yielded by `client.send_message(msg)` (orchestrator.py lines
117-121): a `Message` (modelled by the texts of its parts), a 2-tuple whose
first component carries parts, or anything else. -/
inductive Event where
  | message : List String → Event
  | pair : List String → Event
  | otherEvent : Event
deriving DecidableEq, Repr

/-- The shared `httpx.AsyncClient`, modelled by its mutable default-header
map (the only state of it the orchestrator code manipulates). -/
structure HttpClient where
  headers : List (String × String)
deriving DecidableEq, Repr

/-- The process-wide `_cache` dictionary (orchestrator.py lines 26-31).
Agent cards are opaque; we model a card as the string the resolver
returned. -/
structure Cache where
  cognito_config : Option (String × String)
  agent_arns : List (String × String)
  agent_cards : List (String × String)
  http_client : Option HttpClient
deriving DecidableEq, Repr

/-- The initial `_cache` value: every slot empty. -/
def emptyCache : Cache :=
  { cognito_config := none, agent_arns := [], agent_cards := [], http_client := none }

/-- Oracle for every external collaborator touched during one
`send_agent_message` call. `Except.error m` means the collaborator raised
an exception whose `str` is `m`. `cardFetchTime` and `sendTime` are the
wall-clock durations the card fetch and the send loop would take if
allowed to run to completion. -/
structure Env where
  ssmDocs : Except String String
  ssmBlogs : Except String String
  cognitoSecret : Except String (String × String)
  reauth : String × String → Except String String
  region : String
  sessionId : String
  messageId : String
  cardFetchTime : Nat
  cardFetch : String → Except String String
  sendTime : Nat
  sendEvents : List Event

/-- Association-list lookup, the model of Python `d[k]` / `k in d` on the
string-keyed cache dictionaries. -/
def alookup (l : List (String × String)) (k : String) : Option String :=
  match l with
  | [] => none
  | (k1, v) :: rest => if k1 = k then some v else alookup rest k

/-- Insert-or-replace one key, the model of Python `d[k] = v`. -/
def setEntry (l : List (String × String)) (k v : String) : List (String × String) :=
  match l with
  | [] => [(k, v)]
  | (k1, v1) :: rest => if k1 = k then (k, v) :: rest else (k1, v1) :: setEntry rest k v

/-- The model of `httpx_client.headers.update(headers)`: every key of the
second list is inserted into (or replaces its entry in) the first. -/
def headersUpdate (hs new : List (String × String)) : List (String × String) :=
  new.foldl (fun acc kv => setEntry acc kv.1 kv.2) hs

/-- Hex digit (uppercase), for the percent-encoding of `urllib.parse.quote`. -/
def hexDigit (n : Nat) : Char :=
  if n < 10 then Char.ofNat (48 + n) else Char.ofNat (55 + n)

/-- Characters `urllib.parse.quote` leaves unescaped with `safe=''`. -/
def isUnreservedChar (c : Char) : Bool :=
  c.isAlphanum || c = '_' || c = '.' || c = '~' || c = '-'

/-- Percent-encode one (ASCII) character as `quote` does. -/
def quoteOneChar (c : Char) : String :=
  if isUnreservedChar c then String.singleton c
  else "%" ++ String.singleton (hexDigit (c.toNat / 16)) ++ String.singleton (hexDigit (c.toNat % 16))

/-- `urllib.parse.quote(s, safe='')` restricted to the ASCII strings that
ARNs are (orchestrator.py line 88). -/
def pquote (s : String) : String :=
  String.join (s.toList.map quoteOneChar)

/-- The message envelope built by `create_message` (orchestrator.py lines
70-76); its `message_id` is the fresh `uuid4().hex` drawn from the
environment. -/
structure Msg where
  role : String
  parts : List String
  message_id : String
deriving DecidableEq, Repr

/-- Embeds `create_message` (orchestrator.py lines 70-76). -/
def create_message (env : Env) (text : String) : Msg :=
  { role := "user", parts := [text], message_id := env.messageId }

/-- Embeds `get_cached_config` (orchestrator.py lines 35-50). The two SSM
fetches populate `agent_arns` only if both succeed (the dict literal is
built before the assignment); the Cognito secret populates
`cognito_config` only on success. Each populated slot is read back, never
refetched. Returns the Python result (or raised exception) together with
the cache state after the call. -/
def get_cached_config (env : Env) (c : Cache) :
    Except PyExc (List (String × String) × (String × String)) × Cache :=
  match (if c.agent_arns.isEmpty then
           (match env.ssmDocs with
            | .error m => .error (PyExc.other m)
            | .ok d =>
              match env.ssmBlogs with
              | .error m => .error (PyExc.other m)
              | .ok b => .ok [("docs", d), ("blogs", b)])
         else .ok c.agent_arns : Except PyExc (List (String × String))) with
  | .error e => (.error e, c)
  | .ok arns =>
    let c1 : Cache := { c with agent_arns := arns }
    match c1.cognito_config with
    | some cfg => (.ok (arns, cfg), c1)
    | none =>
      match env.cognitoSecret with
      | .error m => (.error (PyExc.other m), c1)
      | .ok cfg => (.ok (arns, cfg), { c1 with cognito_config := some cfg })

/-- Embeds `get_bearer_token` (orchestrator.py lines 52-58): reads the
cached config and mints a fresh token via `reauthenticate_user`. -/
def get_bearer_token (env : Env) (c : Cache) : Except PyExc String × Cache :=
  match get_cached_config env c with
  | (.error e, c1) => (.error e, c1)
  | (.ok (_, config), c1) =>
    match env.reauth config with
    | .error m => (.error (PyExc.other m), c1)
    | .ok tok => (.ok tok, c1)

/-- Embeds `get_http_client` (orchestrator.py lines 60-68): lazily creates
the shared client on first use and reuses it afterwards. -/
def get_http_client (c : Cache) : HttpClient × Cache :=
  match c.http_client with
  | some cl => (cl, c)
  | none =>
    let cl : HttpClient := { headers := [] }
    (cl, { c with http_client := some cl })

/-- Text extraction from a decisive event (orchestrator.py lines 119 and
121): `event.parts[0].text if event.parts else "No response"`. -/
def extractText (parts : List String) : String :=
  match parts with
  | [] => "No response"
  | p :: _ => p

/-- The `async for` loop over `client.send_message(msg)` (orchestrator.py
lines 117-123): the first event that is a `Message` or a 2-tuple decides
the result; if the stream ends without one, the fall-through value
`"Timeout: No response received"` (line 123) is returned. -/
def processEvents : List Event → String
  | [] => "Timeout: No response received"
  | Event.message parts :: _ => extractText parts
  | Event.pair parts :: _ => extractText parts
  | Event.otherEvent :: rest => processEvents rest

/-- The `asyncio.timeout(AGENT_TIMEOUT)` block of `send_agent_message`
(orchestrator.py lines 113-123): build the message and run the send loop;
if the loop would take longer than `AGENT_TIMEOUT`, `asyncio.TimeoutError`
is raised after `AGENT_TIMEOUT` seconds. `t` is the time already elapsed
in earlier steps; the third component of the result is the total elapsed
time. -/
def sendPhase (env : Env) (message : String) (c : Cache) (t : Nat) :
    Except PyExc String × Cache × Nat :=
  let _msg := create_message env message
  if AGENT_TIMEOUT < env.sendTime then
    (.error PyExc.timeoutError, c, t + AGENT_TIMEOUT)
  else
    (.ok (processEvents env.sendEvents), c, t + env.sendTime)

/-- The invocation URL of orchestrator.py lines 88-89:
`f"https://bedrock-agentcore.{region}.amazonaws.com/runtimes/{escaped_arn}/invocations/"`
with `escaped_arn = quote(agent_arn, safe='')`. -/
def runtimeUrl (env : Env) (agent_arn : String) : String :=
  "https://bedrock-agentcore." ++ env.region ++ ".amazonaws.com/runtimes/" ++
    pquote agent_arn ++ "/invocations/"

/-- The card-fetch-then-send stage of `send_agent_message` (orchestrator.py
lines 99-123): reuse the cached card when present, otherwise fetch it
under its own `asyncio.wait_for(..., timeout=5.0)` and cache it only on
success; then run the send loop under `asyncio.timeout(AGENT_TIMEOUT)`. -/
def cardPhase (env : Env) (message agent_arn : String) (c4 : Cache) :
    Except PyExc String × Cache × Nat :=
  match alookup c4.agent_cards agent_arn with
  | some _card => sendPhase env message c4 0
  | none =>
    if CARD_FETCH_TIMEOUT < env.cardFetchTime then
      (.error PyExc.timeoutError, c4, CARD_FETCH_TIMEOUT)
    else
      match env.cardFetch (runtimeUrl env agent_arn) with
      | .error m => (.error (PyExc.other m), c4, env.cardFetchTime)
      | .ok card =>
        let c5 : Cache :=
          { c4 with agent_cards := setEntry c4.agent_cards agent_arn card }
        sendPhase env message c5 env.cardFetchTime

/-- The body of the `try` block of `send_agent_message` (orchestrator.py
lines 80-123), before the two `except` clauses are applied: config lookup,
`agent_arns[agent_type]` (raising a `KeyError` whose text is the quoted
key when absent), token minting, header installation on the shared client,
then `cardPhase`. Returns the value or raised exception, the cache state
afterwards, and the elapsed time of the two network phases. -/
def send_agent_message_inner (env : Env) (message agent_type : String) (c : Cache) :
    Except PyExc String × Cache × Nat :=
  match get_cached_config env c with
  | (.error e, c1) => (.error e, c1, 0)
  | (.ok (agent_arns, _), c1) =>
    match alookup agent_arns agent_type with
    | none => (.error (PyExc.other ("\x27" ++ agent_type ++ "\x27")), c1, 0)
    | some agent_arn =>
      match get_bearer_token env c1 with
      | (.error e, c2) => (.error e, c2, 0)
      | (.ok bearer_token, c2) =>
        let hdrs := [("Authorization", "Bearer " ++ bearer_token),
                     ("X-Amzn-Bedrock-AgentCore-Runtime-Session-Id", env.sessionId)]
        match get_http_client c2 with
        | (client, c3) =>
          let client1 : HttpClient := { headers := headersUpdate client.headers hdrs }
          cardPhase env message agent_arn { c3 with http_client := some client1 }

/-- Embeds `send_agent_message` (orchestrator.py lines 78-130): the `try`
body with its two `except` clauses. `asyncio.TimeoutError` becomes
`"Agent <name> timed out"` (line 127); every other exception becomes
`"Error: " ++ str(e)[:100]` (line 130). -/
def send_agent_message (env : Env) (message agent_type : String) (c : Cache) :
    String × Cache × Nat :=
  match send_agent_message_inner env message agent_type c with
  | (.ok s, c1, t) => (s, c1, t)
  | (.error PyExc.timeoutError, c1, t) => ("Agent " ++ agent_type ++ " timed out", c1, t)
  | (.error (PyExc.other m), c1, t) => ("Error: " ++ m.take 100, c1, t)

end Orchestrator

namespace Orchestrator

/-! ## The orchestrator entry point -/

/-- One event the `invoke_agent` generator yields to its caller: either an
event forwarded from `agent.stream_async` or one of the `{"error": ...}`
dictionaries of the two non-reraising `except` clauses. -/
inductive OrchEvent where
  | agentEvent : String → OrchEvent
  | errorEvent : String → OrchEvent
deriving DecidableEq, Repr

/-- The observable outcome of one `invoke_agent` call: the events yielded,
the `HTTPException` it let propagate (status code and detail), if any, and
whether `agent.stream_async` was ever invoked (i.e. whether any downstream
work was started). -/
structure OrchOutcome where
  emitted : List OrchEvent
  httpError : Option (Nat × String)
  agentCalled : Bool
deriving DecidableEq, Repr

/-- Oracle for the reasoning layer inside `invoke_agent`: the stream's
events (or the exception it raises), the wall-clock time the whole stream
takes, and the events that had already been yielded when a timeout or an
exception cut the stream short. -/
structure OrchEnv where
  streamOutcome : Except String (List String)
  streamTime : Nat
  partialEvents : List String

/-- Embeds `invoke_agent` (orchestrator.py lines 165-190). An empty (or
missing) `"prompt"` raises `HTTPException(400, "No prompt provided")`,
which the `except HTTPException: raise` clause re-raises to the caller
before `agent.stream_async` is invoked. Otherwise the stream runs under
`asyncio.timeout(25.0)`; deadline expiry yields the terminal
`"Request timed out after 25 seconds"` error event, and any other
exception yields a `"Processing failed: "` error event with the message
truncated to 100 characters. -/
def invoke_agent (oenv : OrchEnv) (payload : List (String × String)) : OrchOutcome :=
  let user_prompt := (alookup payload "prompt").getD ""
  if user_prompt = "" then
    { emitted := [], httpError := some (400, "No prompt provided"), agentCalled := false }
  else
    if ORCHESTRATOR_TIMEOUT < oenv.streamTime then
      { emitted := oenv.partialEvents.map OrchEvent.agentEvent ++
          [OrchEvent.errorEvent "Request timed out after 25 seconds"],
        httpError := none, agentCalled := true }
    else
      match oenv.streamOutcome with
      | .ok evs =>
        { emitted := evs.map OrchEvent.agentEvent, httpError := none, agentCalled := true }
      | .error m =>
        { emitted := oenv.partialEvents.map OrchEvent.agentEvent ++
            [OrchEvent.errorEvent ("Processing failed: " ++ m.take 100)],
          httpError := none, agentCalled := true }

end Orchestrator

namespace Orchestrator

/-! ## Derived definitions used in the statements -/

/-- The state of the shared client after orchestrator.py line 97
(`httpx_client.headers.update(headers)`) ran with bearer token `tok`:
whatever headers the client already carried, updated with this call's
`Authorization` and session-correlation headers. -/
def installHeaders (env : Env) (tok : String) (c : Cache) : HttpClient :=
  { headers := headersUpdate (get_http_client c).1.headers
      [("Authorization", "Bearer " ++ tok),
       ("X-Amzn-Bedrock-AgentCore-Runtime-Session-Id", env.sessionId)] }

/-- A fully healthy oracle: both SSM parameters, the Cognito secret, the
token mint and the card fetch succeed; the card fetch takes 4 s, the send
loop 8 s and yields one `Message` whose first part is `"A"`. Used to
instantiate the theorems at a concrete input. -/
def envHappy : Env :=
  { ssmDocs := .ok "arnD", ssmBlogs := .ok "arnB",
    cognitoSecret := .ok ("cid", "csec"),
    reauth := fun _ => .ok "tok",
    region := "us-east-1", sessionId := "sid", messageId := "mid",
    cardFetchTime := 4, cardFetch := fun _ => .ok "cardD",
    sendTime := 8, sendEvents := [Event.message ["A"]] }

/-- A cache in steady state: config and one card already populated, the
shared client created. Used to instantiate the theorems at a concrete
input. -/
def cacheWarm : Cache :=
  { cognito_config := some ("cid", "csec"),
    agent_arns := [("docs", "arnD"), ("blogs", "arnB")],
    agent_cards := [("arnD", "cardD")],
    http_client := some { headers := [] } }

/-- `cacheWarm` with the card cache still cold. Used to instantiate the
theorems at a concrete input. -/
def cacheNoCards : Cache :=
  { cacheWarm with agent_cards := [] }

/-! ## Concurrency model of the card-cache population

orchestrator.py lines 100-104 perform, for one endpoint, the sequence
`check (arn not in _cache['agent_cards'])` → `await fetch` → `store`.
Under asyncio's cooperative scheduling everything between two `await`s is
atomic, so each task has exactly one suspension point: the fetch itself.
We model two concurrent `send_agent_message` callers for the same
endpoint as a two-task transition system over the shared card slot and
count how many fetches are started. -/

/-- Program counter of one caller in the card-population fragment:
`start` = about to run the `not in` check, `fetching` = suspended in
`await resolver.get_agent_card()`, `done` = past line 106. -/
inductive TaskPc where
  | start : TaskPc
  | fetching : TaskPc
  | done : TaskPc
deriving DecidableEq, Repr

/-- Shared state of the two-caller card-population system: the cache slot
`_cache['agent_cards'][arn]`, the number of fetches started so far, and
both program counters. -/
structure CardSys where
  slot : Option String
  fetchCount : Nat
  pc0 : TaskPc
  pc1 : TaskPc
deriving DecidableEq, Repr

/-- One atomic step of a single caller. In `start`, the membership check
and the start of the awaited fetch are one atomic block: a hit moves
straight to `done` (line 106 reads the slot), a miss starts a fetch. In
`fetching`, the fetch completes and line 102 stores the card. -/
def stepPc (slot : Option String) (fc : Nat) : TaskPc → TaskPc × Option String × Nat
  | TaskPc.start =>
    match slot with
    | some _ => (TaskPc.done, slot, fc)
    | none => (TaskPc.fetching, slot, fc + 1)
  | TaskPc.fetching => (TaskPc.done, some "cardD", fc)
  | TaskPc.done => (TaskPc.done, slot, fc)

/-- Scheduler step: run one atomic step of caller `false` (task 0) or
caller `true` (task 1). -/
def stepSys (s : CardSys) (i : Bool) : CardSys :=
  if i then
    match stepPc s.slot s.fetchCount s.pc1 with
    | (pc, slot, fc) => { slot := slot, fetchCount := fc, pc0 := s.pc0, pc1 := pc }
  else
    match stepPc s.slot s.fetchCount s.pc0 with
    | (pc, slot, fc) => { slot := slot, fetchCount := fc, pc0 := pc, pc1 := s.pc1 }

/-- Run a whole schedule (an arbitrary interleaving of the two callers). -/
def runSched (sched : List Bool) (s : CardSys) : CardSys :=
  sched.foldl stepSys s

/-- Initial state: cold cache slot, no fetch started, both callers at the
membership check. -/
def initCardSys : CardSys :=
  { slot := none, fetchCount := 0, pc0 := TaskPc.start, pc1 := TaskPc.start }

/-- A caller that has passed its membership check may have started at most
one fetch; `start` contributes none. -/
def taskContrib : TaskPc → Nat
  | TaskPc.start => 0
  | TaskPc.fetching => 1
  | TaskPc.done => 1

/-- Invariant of the card-population system: fetches started never exceed
the number of callers past their membership check. -/
def cardInv (s : CardSys) : Prop :=
  s.fetchCount ≤ taskContrib s.pc0 + taskContrib s.pc1

end Orchestrator

namespace Orchestrator

/-! ## Helper lemmas -/

/-- Python slicing `s[:n]` never yields more than `n` characters. -/
theorem take_length_le (s : String) (n : Nat) : (s.take n).length ≤ n := by
  obtain ⟨l⟩ := s
  rw [String.take_eq]
  simp

/-- Once both config slots are populated, `get_cached_config` reads them
back without touching the environment and leaves the cache unchanged. -/
theorem get_cached_config_populated (env : Env) (c : Cache) (cfg : String × String)
    (ha : c.agent_arns.isEmpty = false) (hc : c.cognito_config = some cfg) :
    get_cached_config env c = (.ok (c.agent_arns, cfg), c) := by
  obtain ⟨cc, arns, cards, hcl⟩ := c
  simp only at ha hc
  subst hc
  simp [get_cached_config, ha]

/-- `get_cached_config` never touches the card cache or the shared
client. -/
theorem get_cached_config_frame (env : Env) (c : Cache) :
    (get_cached_config env c).2.agent_cards = c.agent_cards ∧
    (get_cached_config env c).2.http_client = c.http_client := by
  unfold get_cached_config
  split
  · simp
  · rcases hcc : c.cognito_config with _ | cfg0
    · rcases henv : env.cognitoSecret with m | s <;> simp [hcc, henv]
    · simp [hcc]

/-- With both config slots populated, `get_bearer_token` succeeds with
the minted token and leaves the cache unchanged. -/
theorem get_bearer_token_populated (env : Env) (c : Cache) (cfg : String × String) (tok : String)
    (ha : c.agent_arns.isEmpty = false) (hc : c.cognito_config = some cfg)
    (hr : env.reauth cfg = Except.ok tok) :
    get_bearer_token env c = (Except.ok tok, c) := by
  unfold get_bearer_token
  rw [get_cached_config_populated env c cfg ha hc]
  simp [hr]

/-- The send loop never changes the cache. -/
theorem sendPhase_cache (env : Env) (message : String) (c : Cache) (t : Nat) :
    (sendPhase env message c t).2.1 = c := by
  unfold sendPhase
  split <;> rfl

/-- The card stage only ever touches the card slot of the cache. -/
theorem cardPhase_frame (env : Env) (message arn : String) (c4 : Cache) :
    (cardPhase env message arn c4).2.1.agent_arns = c4.agent_arns ∧
    (cardPhase env message arn c4).2.1.cognito_config = c4.cognito_config ∧
    (cardPhase env message arn c4).2.1.http_client = c4.http_client := by
  unfold cardPhase
  split
  · simp [sendPhase_cache]
  · split
    · simp
    · split
      · simp
      · simp [sendPhase_cache]

/-- With config, resolution and auth all served from a populated cache,
the inner computation is exactly the card stage run on the cache whose
shared client now carries this call's headers. -/
theorem inner_eq_cardPhase_pop (env : Env) (message agent_type arn tok : String)
    (cfg : String × String) (c : Cache)
    (ha : c.agent_arns.isEmpty = false)
    (hl : alookup c.agent_arns agent_type = some arn)
    (hc : c.cognito_config = some cfg)
    (hr : env.reauth cfg = Except.ok tok) :
    send_agent_message_inner env message agent_type c =
      cardPhase env message arn { c with http_client := some (installHeaders env tok c) } := by
  obtain ⟨cc, arns, cards, hcl⟩ := c
  unfold send_agent_message_inner
  rw [get_cached_config_populated env ⟨cc, arns, cards, hcl⟩ cfg ha hc]
  simp only
  rw [hl]
  simp only
  rw [get_bearer_token_populated env ⟨cc, arns, cards, hcl⟩ cfg tok ha hc hr]
  rcases hcl with _ | cl <;> simp [get_http_client, installHeaders]

/-- Reading the entry just written. -/
theorem alookup_setEntry_self (l : List (String × String)) (k v : String) :
    alookup (setEntry l k v) k = some v := by
  induction l with
  | nil => simp [setEntry, alookup]
  | cons kv rest ih =>
    obtain ⟨k1, v1⟩ := kv
    by_cases h : k1 = k <;> simp [setEntry, alookup, h, ih]

/-- Writing one key leaves every other key's entry alone. -/
theorem alookup_setEntry_other (l : List (String × String)) (k v k2 : String) (h : k2 ≠ k) :
    alookup (setEntry l k v) k2 = alookup l k2 := by
  have hkk : ¬ (k = k2) := fun hh => h hh.symm
  induction l with
  | nil => simp [setEntry, alookup, hkk]
  | cons kv rest ih =>
    obtain ⟨k1, v1⟩ := kv
    by_cases h1 : k1 = k
    · subst h1
      simp [setEntry, alookup, hkk]
    · simp [setEntry, alookup, h1, ih]

/-- `get_http_client` only ever touches the client slot of the cache. -/
theorem get_http_client_frame (c : Cache) :
    (get_http_client c).2.agent_cards = c.agent_cards ∧
    (get_http_client c).2.agent_arns = c.agent_arns ∧
    (get_http_client c).2.cognito_config = c.cognito_config := by
  rcases h : c.http_client with _ | cl <;> simp [get_http_client, h]

/-- `get_bearer_token` never touches the card cache or the shared
client. -/
theorem get_bearer_token_frame (env : Env) (c : Cache) :
    (get_bearer_token env c).2.agent_cards = c.agent_cards ∧
    (get_bearer_token env c).2.http_client = c.http_client := by
  unfold get_bearer_token
  rcases h : get_cached_config env c with ⟨res, c1⟩
  have hfr := get_cached_config_frame env c
  rw [h] at hfr
  rcases res with e | v
  · simpa using hfr
  · obtain ⟨arns, cfg⟩ := v
    rcases hre : env.reauth cfg with m | tok <;> simpa [hre] using hfr

/-- The classifying wrapper changes only the result string, never the
cache or the elapsed time. -/
theorem send_agent_message_cache (env : Env) (message agent_type : String) (c : Cache) :
    (send_agent_message env message agent_type c).2 =
      (send_agent_message_inner env message agent_type c).2 := by
  unfold send_agent_message
  rcases h : send_agent_message_inner env message agent_type c with ⟨res, c1, t⟩
  rcases res with e | s
  · rcases e with _ | m <;> simp
  · simp

/-- Outer wrapper on a successful inner run. -/
theorem send_of_inner_ok (env : Env) (message agent_type : String) (c : Cache)
    (s : String) (c1 : Cache) (t : Nat)
    (h : send_agent_message_inner env message agent_type c = (Except.ok s, c1, t)) :
    send_agent_message env message agent_type c = (s, c1, t) := by
  unfold send_agent_message
  rw [h]

/-- Outer wrapper on an inner `asyncio.TimeoutError`. -/
theorem send_of_inner_timeout (env : Env) (message agent_type : String) (c : Cache)
    (c1 : Cache) (t : Nat)
    (h : send_agent_message_inner env message agent_type c = (Except.error PyExc.timeoutError, c1, t)) :
    send_agent_message env message agent_type c = ("Agent " ++ agent_type ++ " timed out", c1, t) := by
  unfold send_agent_message
  rw [h]

/-- Outer wrapper on any other inner exception. -/
theorem send_of_inner_error (env : Env) (message agent_type : String) (c : Cache)
    (m : String) (c1 : Cache) (t : Nat)
    (h : send_agent_message_inner env message agent_type c = (Except.error (PyExc.other m), c1, t)) :
    send_agent_message env message agent_type c = ("Error: " ++ m.take 100, c1, t) := by
  unfold send_agent_message
  rw [h]

/-- Card stage on a cache hit: no fetch happens, the cache is read and the
send loop runs with no time spent on discovery. -/
theorem cardPhase_hit (env : Env) (message arn card : String) (c4 : Cache)
    (hhit : alookup c4.agent_cards arn = some card) :
    cardPhase env message arn c4 = sendPhase env message c4 0 := by
  unfold cardPhase
  rw [hhit]

/-- Card stage on a miss whose fetch exceeds the 5-second sub-deadline:
`asyncio.TimeoutError` is raised after exactly 5 seconds and nothing is
cached. -/
theorem cardPhase_miss_timeout (env : Env) (message arn : String) (c4 : Cache)
    (hmiss : alookup c4.agent_cards arn = none)
    (hslow : CARD_FETCH_TIMEOUT < env.cardFetchTime) :
    cardPhase env message arn c4 = (Except.error PyExc.timeoutError, c4, CARD_FETCH_TIMEOUT) := by
  unfold cardPhase
  rw [hmiss]
  simp [hslow]

/-- Card stage on a miss whose fetch fails within the sub-deadline: the
exception propagates to the classifier and nothing is cached. -/
theorem cardPhase_miss_error (env : Env) (message arn em : String) (c4 : Cache)
    (hmiss : alookup c4.agent_cards arn = none)
    (hfast : env.cardFetchTime ≤ CARD_FETCH_TIMEOUT)
    (hcf : env.cardFetch (runtimeUrl env arn) = Except.error em) :
    cardPhase env message arn c4 = (Except.error (PyExc.other em), c4, env.cardFetchTime) := by
  unfold cardPhase
  rw [hmiss]
  simp [Nat.not_lt.mpr hfast, hcf]

/-- Card stage on a miss whose fetch succeeds within the sub-deadline: the
card is cached and the send loop runs. -/
theorem cardPhase_miss_ok (env : Env) (message arn card : String) (c4 : Cache)
    (hmiss : alookup c4.agent_cards arn = none)
    (hfast : env.cardFetchTime ≤ CARD_FETCH_TIMEOUT)
    (hcf : env.cardFetch (runtimeUrl env arn) = Except.ok card) :
    cardPhase env message arn c4 =
      sendPhase env message { c4 with agent_cards := setEntry c4.agent_cards arn card }
        env.cardFetchTime := by
  unfold cardPhase
  rw [hmiss]
  simp [Nat.not_lt.mpr hfast, hcf]

/-- Send loop exceeding the 10-second deadline: `asyncio.TimeoutError`
after exactly 10 more seconds. -/
theorem sendPhase_timeout (env : Env) (message : String) (c : Cache) (t : Nat)
    (h : AGENT_TIMEOUT < env.sendTime) :
    sendPhase env message c t = (Except.error PyExc.timeoutError, c, t + AGENT_TIMEOUT) := by
  unfold sendPhase
  simp [h]

/-- Send loop finishing within the deadline: the stream decides the
result. -/
theorem sendPhase_done (env : Env) (message : String) (c : Cache) (t : Nat)
    (h : env.sendTime ≤ AGENT_TIMEOUT) :
    sendPhase env message c t = (Except.ok (processEvents env.sendEvents), c, t + env.sendTime) := by
  unfold sendPhase
  simp [Nat.not_lt.mpr h]

/-- The card stage leaves the card cache unchanged unless it successfully
fetched the card of a previously missing endpoint, in which case it adds
exactly that entry. -/
theorem cardPhase_cards (env : Env) (message arn : String) (c4 : Cache) :
    (cardPhase env message arn c4).2.1.agent_cards = c4.agent_cards ∨
    ∃ card, alookup c4.agent_cards arn = none ∧
      env.cardFetch (runtimeUrl env arn) = Except.ok card ∧
      (cardPhase env message arn c4).2.1.agent_cards = setEntry c4.agent_cards arn card := by
  rcases hm : alookup c4.agent_cards arn with _ | card
  · by_cases ht : CARD_FETCH_TIMEOUT < env.cardFetchTime
    · left
      rw [cardPhase_miss_timeout env message arn c4 hm ht]
    · rcases hcf : env.cardFetch (runtimeUrl env arn) with em | card
      · left
        rw [cardPhase_miss_error env message arn em c4 hm (Nat.not_lt.mp ht) hcf]
      · right
        refine ⟨card, rfl, rfl, ?_⟩
        rw [cardPhase_miss_ok env message arn card c4 hm (Nat.not_lt.mp ht) hcf,
          sendPhase_cache]
  · left
    rw [cardPhase_hit env message arn card c4 hm, sendPhase_cache]

/-- One cache write per call, at most: a `send_agent_message` call leaves
the card cache unchanged unless it successfully fetched the card of a
previously missing endpoint, in which case it adds exactly that entry. -/
theorem send_cards_evolution (env : Env) (message agent_type : String) (c : Cache) :
    (send_agent_message env message agent_type c).2.1.agent_cards = c.agent_cards ∨
    ∃ arn card, alookup c.agent_cards arn = none ∧
      env.cardFetch (runtimeUrl env arn) = Except.ok card ∧
      (send_agent_message env message agent_type c).2.1.agent_cards =
        setEntry c.agent_cards arn card := by
  have hx : ∀ arn : String, ∀ c4 : Cache, c4.agent_cards = c.agent_cards →
      ((cardPhase env message arn c4).2.1.agent_cards = c.agent_cards ∨
        ∃ arn2 card, alookup c.agent_cards arn2 = none ∧
          env.cardFetch (runtimeUrl env arn2) = Except.ok card ∧
          (cardPhase env message arn c4).2.1.agent_cards = setEntry c.agent_cards arn2 card) := by
    intro arn c4 hc4
    rcases cardPhase_cards env message arn c4 with h5 | ⟨card, hmiss, hok, hset⟩
    · left
      rw [h5, hc4]
    · right
      exact ⟨arn, card, by rw [← hc4]; exact hmiss, hok, by rw [hset, hc4]⟩
  rw [send_agent_message_cache]
  unfold send_agent_message_inner
  rcases hcc : get_cached_config env c with ⟨res, c1⟩
  have hf1 := get_cached_config_frame env c
  rw [hcc] at hf1
  simp only at hf1
  rcases res with e | v
  · left; exact hf1.1
  · obtain ⟨arns, cfg⟩ := v
    simp only
    rcases hal : alookup arns agent_type with _ | arn
    · left; exact hf1.1
    · rcases hbt : get_bearer_token env c1 with ⟨res2, c2⟩
      have hf2 := get_bearer_token_frame env c1
      rw [hbt] at hf2
      simp only at hf2
      rcases res2 with e2 | tok
      · left; exact hf2.1.trans hf1.1
      · simp only
        rcases hhc : get_http_client c2 with ⟨client, c3⟩
        have hf3 := get_http_client_frame c2
        rw [hhc] at hf3
        simp only at hf3
        exact hx arn _ (by simp [hhc, hf3.1, hf2.1, hf1.1])

/-- A caller can start at most one fetch. -/
theorem taskContrib_le_one (pc : TaskPc) : taskContrib pc ≤ 1 := by
  cases pc <;> simp [taskContrib]

/-- The card-population invariant is preserved by every scheduler step. -/
theorem stepSys_inv (s : CardSys) (i : Bool) (h : cardInv s) : cardInv (stepSys s i) := by
  obtain ⟨slot, fc, pc0, pc1⟩ := s
  unfold cardInv at h ⊢
  cases i <;> cases pc0 <;> cases pc1 <;> rcases slot with _ | card <;>
    simp [stepSys, stepPc, taskContrib] at h ⊢ <;> omega

/-- The card-population invariant is preserved by every schedule. -/
theorem runSched_inv (sched : List Bool) (s : CardSys) (h : cardInv s) :
    cardInv (runSched sched s) := by
  induction sched generalizing s with
  | nil => exact h
  | cons i rest ih => simpa [runSched, List.foldl] using ih (stepSys s i) (stepSys_inv s i h)

/-- A stream with no decisive event falls through to the sentinel. -/
theorem processEvents_all_other (evs : List Event)
    (h : ∀ e ∈ evs, e = Event.otherEvent) :
    processEvents evs = "Timeout: No response received" := by
  induction evs with
  | nil => rfl
  | cons e rest ih =>
    have he : e = Event.otherEvent := h e (by simp)
    subst he
    exact ih (fun e2 hmem => h e2 (by simp [hmem]))

/-- Whenever resolution, auth and client setup are served from the
populated caches, the card is either cached or successfully fetched within
its sub-deadline, and the send loop finishes within the 10-second
deadline, `send_agent_message` returns exactly what the event stream
decides. -/
theorem send_result_of_reach (env : Env) (message agent_type arn tok card : String)
    (cfg : String × String) (c : Cache)
    (ha : c.agent_arns.isEmpty = false)
    (hl : alookup c.agent_arns agent_type = some arn)
    (hc : c.cognito_config = some cfg)
    (hr : env.reauth cfg = Except.ok tok)
    (hcard : alookup c.agent_cards arn = some card ∨
      (alookup c.agent_cards arn = none ∧ env.cardFetchTime ≤ CARD_FETCH_TIMEOUT ∧
        env.cardFetch (runtimeUrl env arn) = Except.ok card))
    (hfast : env.sendTime ≤ AGENT_TIMEOUT) :
    (send_agent_message env message agent_type c).1 = processEvents env.sendEvents := by
  have hinner := inner_eq_cardPhase_pop env message agent_type arn tok cfg c ha hl hc hr
  rcases hcard with hhit | ⟨hmiss, hct, hcf⟩
  · have hcp : cardPhase env message arn
        { c with http_client := some (installHeaders env tok c) } =
        sendPhase env message { c with http_client := some (installHeaders env tok c) } 0 :=
      cardPhase_hit env message arn card _ hhit
    rw [hcp, sendPhase_done env message _ 0 hfast] at hinner
    rw [send_of_inner_ok env message agent_type c _ _ _ hinner]
  · have hcp := cardPhase_miss_ok env message arn card
      { c with http_client := some (installHeaders env tok c) } hmiss hct hcf
    rw [hcp, sendPhase_done env message _ env.cardFetchTime hfast] at hinner
    rw [send_of_inner_ok env message agent_type c _ _ _ hinner]

/-- After one call whose resolution and auth steps were served from the
populated caches, the shared client in the cache carries that call's
`Authorization` and session headers as its default headers, and the config
slots are untouched — the header mutation outlives the call. -/
theorem send_installs_headers (env : Env) (message agent_type arn tok : String)
    (cfg : String × String) (c : Cache)
    (ha : c.agent_arns.isEmpty = false)
    (hl : alookup c.agent_arns agent_type = some arn)
    (hc : c.cognito_config = some cfg)
    (hr : env.reauth cfg = Except.ok tok) :
    ∃ hs, (send_agent_message env message agent_type c).2.1.http_client = some ⟨hs⟩ ∧
      alookup hs "Authorization" = some ("Bearer " ++ tok) ∧
      alookup hs "X-Amzn-Bedrock-AgentCore-Runtime-Session-Id" = some env.sessionId ∧
      (send_agent_message env message agent_type c).2.1.agent_arns = c.agent_arns ∧
      (send_agent_message env message agent_type c).2.1.cognito_config = c.cognito_config := by
  have hcache := send_agent_message_cache env message agent_type c
  rw [inner_eq_cardPhase_pop env message agent_type arn tok cfg c ha hl hc hr] at hcache
  have hres : (send_agent_message env message agent_type c).2.1 =
      (cardPhase env message arn
        { c with http_client := some (installHeaders env tok c) }).2.1 :=
    congrArg Prod.fst hcache
  have hfr := cardPhase_frame env message arn
    { c with http_client := some (installHeaders env tok c) }
  refine ⟨(installHeaders env tok c).headers, ?_, ?_, ?_, ?_, ?_⟩
  · rw [hres, hfr.2.2]
  · unfold installHeaders headersUpdate
    simp only [List.foldl]
    rw [alookup_setEntry_other _ _ _ _ (by decide), alookup_setEntry_self]
  · unfold installHeaders headersUpdate
    simp only [List.foldl]
    rw [alookup_setEntry_self]
  · rw [hres, hfr.1]
  · rw [hres, hfr.2.1]

end Orchestrator

namespace Orchestrator

/-! ## Claim C1: no exception escapes `send_agent_message` -/

/-- C1: for every environment, message text, agent name and cache state,
`send_agent_message` returns one of the three classified string results:
the inner value on success, `"Agent <name> timed out"` when the inner
computation raised `asyncio.TimeoutError`, and — for any other exception
with text `m` — exactly `"Error: " ++ m[:100]`, whose total length is at
most 107 characters; no exception propagates to the caller. -/
theorem c1_no_exception_escapes (env : Env) (message agent_type : String) (c : Cache) :
    (∃ s, (send_agent_message_inner env message agent_type c).1 = Except.ok s ∧
        (send_agent_message env message agent_type c).1 = s) ∨
    ((send_agent_message_inner env message agent_type c).1 = Except.error PyExc.timeoutError ∧
        (send_agent_message env message agent_type c).1 = "Agent " ++ agent_type ++ " timed out") ∨
    (∃ m, (send_agent_message_inner env message agent_type c).1 = Except.error (PyExc.other m) ∧
        (send_agent_message env message agent_type c).1 = "Error: " ++ m.take 100 ∧
        ((send_agent_message env message agent_type c).1).length ≤ 107) := by
  rcases h : send_agent_message_inner env message agent_type c with ⟨res, c1, t⟩
  rcases res with e | s
  · rcases e with _ | m
    · right; left
      exact ⟨rfl, by simp [send_agent_message, h]⟩
    · right; right
      refine ⟨m, rfl, by simp [send_agent_message, h], ?_⟩
      have hlen : (m.take 100).length ≤ 100 := take_length_le m 100
      have h7 : ("Error: " : String).length = 7 := rfl
      simp only [send_agent_message, h, String.length_append]
      omega
  · left
    exact ⟨s, rfl, by simp [send_agent_message, h]⟩

end Orchestrator

namespace Orchestrator

/-! ## Claim C7: the outer deadline dominates every per-agent deadline -/

/-- C7: the outer orchestrator deadline constant (25 s, the
`asyncio.timeout(25.0)` literal of `invoke_agent`) is strictly greater
than both the 10-second per-agent send deadline `AGENT_TIMEOUT` and the
5-second card-fetch deadline — a static relation between the configured
constants. -/
theorem c7_outer_deadline_dominates :
    AGENT_TIMEOUT < ORCHESTRATOR_TIMEOUT ∧
    CARD_FETCH_TIMEOUT < ORCHESTRATOR_TIMEOUT ∧
    CARD_FETCH_TIMEOUT < AGENT_TIMEOUT := by
  decide

end Orchestrator

namespace Orchestrator

/-! ## Claim C2: what the 10-second deadline actually wraps -/

/-- C2 counterexample: with a cold cache, a card fetch of 4 s and a send
loop of 8 s, steps 4-5 together take 12 s — beyond the 10-second deadline
— yet the call succeeds with payload `"A"` instead of the claimed Timeout
classification: `asyncio.timeout(AGENT_TIMEOUT)` does not wrap the card
fetch. -/
theorem c2_counterexample :
    AGENT_TIMEOUT < (send_agent_message envHappy "hi" "docs" emptyCache).2.2 ∧
    (send_agent_message envHappy "hi" "docs" emptyCache).1 = "A" ∧
    (send_agent_message envHappy "hi" "docs" emptyCache).1 ≠ "Agent " ++ "docs" ++ " timed out" := by
  decide

/-- C2 (amended): the 10-second `asyncio.timeout(AGENT_TIMEOUT)` wraps
only step 5 (the send loop); step 4 (the card fetch) is guarded by its own
separate 5-second `asyncio.wait_for` deadline. Exceeding either separate
deadline yields the classified `"Agent <name> timed out"` result — the
card deadline after exactly 5 s, the send deadline after the card-fetch
time plus exactly 10 s — but the two steps together are not bounded by any
common 10-second budget. -/
theorem c2_amended_two_separate_deadlines (env : Env) (message agent_type arn tok : String)
    (cfg : String × String) (c : Cache)
    (ha : c.agent_arns.isEmpty = false)
    (hl : alookup c.agent_arns agent_type = some arn)
    (hc : c.cognito_config = some cfg)
    (hr : env.reauth cfg = Except.ok tok)
    (hmiss : alookup c.agent_cards arn = none) :
    (CARD_FETCH_TIMEOUT < env.cardFetchTime →
      send_agent_message env message agent_type c =
        ("Agent " ++ agent_type ++ " timed out",
          { c with http_client := some (installHeaders env tok c) }, CARD_FETCH_TIMEOUT)) ∧
    (∀ card, env.cardFetch (runtimeUrl env arn) = Except.ok card →
      env.cardFetchTime ≤ CARD_FETCH_TIMEOUT → AGENT_TIMEOUT < env.sendTime →
      (send_agent_message env message agent_type c).1 = "Agent " ++ agent_type ++ " timed out" ∧
      (send_agent_message env message agent_type c).2.2 = env.cardFetchTime + AGENT_TIMEOUT) := by
  have hinner := inner_eq_cardPhase_pop env message agent_type arn tok cfg c ha hl hc hr
  constructor
  · intro hslow
    rw [cardPhase_miss_timeout env message arn
      { c with http_client := some (installHeaders env tok c) } hmiss hslow] at hinner
    exact send_of_inner_timeout env message agent_type c _ _ hinner
  · intro card hcf hfast hsendslow
    rw [cardPhase_miss_ok env message arn card
        { c with http_client := some (installHeaders env tok c) } hmiss hfast hcf,
      sendPhase_timeout env message _ env.cardFetchTime hsendslow] at hinner
    have hout := send_of_inner_timeout env message agent_type c _ _ hinner
    rw [hout]
    exact ⟨rfl, rfl⟩

/-- C2 amended witness: a 6-second card fetch alone exhausts its own
5-second deadline and yields the classified timeout result. -/
theorem c2_amended_witness :
    (send_agent_message { envHappy with cardFetchTime := 6 } "hi" "docs" cacheNoCards).1 =
      "Agent " ++ "docs" ++ " timed out" ∧
    (send_agent_message { envHappy with cardFetchTime := 6 } "hi" "docs" cacheNoCards).2.2 =
      CARD_FETCH_TIMEOUT := by
  rw [(c2_amended_two_separate_deadlines { envHappy with cardFetchTime := 6 } "hi" "docs" "arnD"
    "tok" ("cid", "csec") cacheNoCards rfl (by decide) rfl rfl rfl).1 (by decide)]
  exact ⟨rfl, rfl⟩

end Orchestrator

namespace Orchestrator

/-! ## Claim C3: an empty-parts envelope yields the success sentinel -/

/-- C3: whenever the response envelope that decides the result (the first
`Message` or 2-tuple event of the stream, received within the 10-second
deadline) carries zero parts, `send_agent_message` returns the success
sentinel `"No response"` — not an error classification and not a crash
from indexing `parts[0]`. -/
theorem c3_empty_parts_success_sentinel (env : Env) (message agent_type arn tok card : String)
    (cfg : String × String) (c : Cache) (rest : List Event)
    (ha : c.agent_arns.isEmpty = false)
    (hl : alookup c.agent_arns agent_type = some arn)
    (hc : c.cognito_config = some cfg)
    (hr : env.reauth cfg = Except.ok tok)
    (hcard : alookup c.agent_cards arn = some card ∨
      (alookup c.agent_cards arn = none ∧ env.cardFetchTime ≤ CARD_FETCH_TIMEOUT ∧
        env.cardFetch (runtimeUrl env arn) = Except.ok card))
    (hfast : env.sendTime ≤ AGENT_TIMEOUT)
    (hev : env.sendEvents = Event.message [] :: rest ∨
      env.sendEvents = Event.pair [] :: rest) :
    (send_agent_message env message agent_type c).1 = "No response" := by
  rw [send_result_of_reach env message agent_type arn tok card cfg c ha hl hc hr hcard hfast]
  rcases hev with h | h <;> rw [h] <;> rfl

/-- C3 witness: a single zero-part `Message` envelope yields the
sentinel. -/
theorem c3_witness :
    (send_agent_message { envHappy with sendEvents := [Event.message []] }
      "hi" "docs" cacheWarm).1 = "No response" :=
  c3_empty_parts_success_sentinel { envHappy with sendEvents := [Event.message []] }
    "hi" "docs" "arnD" "tok" "cardD" ("cid", "csec") cacheWarm []
    rfl (by decide) rfl rfl (Or.inl (by decide)) (by decide) (Or.inl rfl)

end Orchestrator

namespace Orchestrator

/-! ## Claim C4: unknown agent names fall into the generic catch-all -/

set_option maxRecDepth 2048 in
/-- C4 counterexample: the logical name `"appraisal"` is not configured;
the call fails not with a distinct `UnknownAgent` classification but with
the generic catch-all `Error(...)` string produced by the outer
`except Exception` handler from the `KeyError` — the same `"Error: "`
class an arbitrary auth failure lands in. -/
theorem c4_counterexample :
    (send_agent_message envHappy "hi" "appraisal" cacheWarm).1 = "Error: \x27appraisal\x27" ∧
    ((send_agent_message envHappy "hi" "appraisal" cacheWarm).1).data.take 7 = "Error: ".data ∧
    ((send_agent_message { envHappy with reauth := fun _ => Except.error "auth down" }
      "hi" "docs" cacheWarm).1).data.take 7 = "Error: ".data := by
  decide

/-- C4 (amended): for every logical agent name with no entry in the
configured table, `send_agent_message` always terminates immediately (no
network time is spent) with the generic catch-all classification
`"Error: " ++ str(KeyError)[:100]` — the code defines no distinct
`UnknownAgent` error class. -/
theorem c4_amended_generic_keyerror (env : Env) (message agent_type : String) (c c1 : Cache)
    (arns : List (String × String)) (cfg : String × String)
    (hcfg : get_cached_config env c = (Except.ok (arns, cfg), c1))
    (hmiss : alookup arns agent_type = none) :
    send_agent_message env message agent_type c =
      ("Error: " ++ ("\x27" ++ agent_type ++ "\x27").take 100, c1, 0) := by
  unfold send_agent_message send_agent_message_inner
  rw [hcfg]
  simp [hmiss]

/-- C4 amended witness: the unconfigured name `"appraisal"` produces the
generic catch-all result. -/
theorem c4_amended_witness :
    send_agent_message envHappy "hi" "appraisal" cacheWarm =
      ("Error: " ++ ("\x27" ++ "appraisal" ++ "\x27").take 100, cacheWarm, 0) :=
  c4_amended_generic_keyerror envHappy "hi" "appraisal" cacheWarm cacheWarm
    [("docs", "arnD"), ("blogs", "arnB")] ("cid", "csec") rfl (by decide)

end Orchestrator

namespace Orchestrator

/-! ## Claim C5: empty prompts are rejected as client errors -/

/-- C5: a payload whose `"prompt"` is missing or empty makes
`invoke_agent` terminate immediately with the 4xx client-error
classification `HTTPException(400, "No prompt provided")` (re-raised by
the `except HTTPException: raise` clause, not converted to a server
fault), with no event produced beforehand and `agent.stream_async` never
invoked — no downstream or network call is issued. -/
theorem c5_empty_prompt_client_error (oenv : OrchEnv) (payload : List (String × String))
    (h : alookup payload "prompt" = none ∨ alookup payload "prompt" = some "") :
    invoke_agent oenv payload =
      { emitted := [], httpError := some (400, "No prompt provided"), agentCalled := false } := by
  unfold invoke_agent
  rcases h with h | h <;> simp [h]

/-- C5 witness: the empty prompt `""` is rejected before any agent
work. -/
theorem c5_witness :
    invoke_agent { streamOutcome := Except.ok ["ev"], streamTime := 3, partialEvents := [] }
      [("prompt", "")] =
      { emitted := [], httpError := some (400, "No prompt provided"), agentCalled := false } :=
  c5_empty_prompt_client_error
    { streamOutcome := Except.ok ["ev"], streamTime := 3, partialEvents := [] }
    [("prompt", "")] (Or.inr (by decide))

end Orchestrator

namespace Orchestrator

/-! ## Claim C6: caches never store failures and never drop successes -/

/-- C6: for each process-wide cache: (1)-(2) a failed SSM fetch leaves the
whole cache untouched (the second fetch failing discards the first value
too, since the dict literal is built before the assignment); (3) a failed
Cognito-secret fetch leaves the cache untouched; (4) once populated, the
config caches are served without consulting the environment at all — the
result is identical for any two environments and the cache is never
invalidated; (5) one `send_agent_message` call leaves the card cache
unchanged unless it successfully fetched a card for a previously missing
endpoint, which it then adds (failures and timeouts never write, existing
entries are never evicted); (6) a cached card is reused without any
fetch — the card stage proceeds straight to the send loop. -/
theorem c6_caches_failure_safe_and_memoized :
    (∀ env c m, c.agent_arns = [] → env.ssmDocs = Except.error m →
      get_cached_config env c = (Except.error (PyExc.other m), c)) ∧
    (∀ env c d m, c.agent_arns = [] → env.ssmDocs = Except.ok d →
      env.ssmBlogs = Except.error m →
      get_cached_config env c = (Except.error (PyExc.other m), c)) ∧
    (∀ env c m, c.agent_arns.isEmpty = false → c.cognito_config = none →
      env.cognitoSecret = Except.error m →
      get_cached_config env c = (Except.error (PyExc.other m), c)) ∧
    (∀ env env2 c cfg, c.agent_arns.isEmpty = false → c.cognito_config = some cfg →
      get_cached_config env c = (Except.ok (c.agent_arns, cfg), c) ∧
      get_cached_config env2 c = get_cached_config env c) ∧
    (∀ env message agent_type c,
      (send_agent_message env message agent_type c).2.1.agent_cards = c.agent_cards ∨
      ∃ arn card, alookup c.agent_cards arn = none ∧
        env.cardFetch (runtimeUrl env arn) = Except.ok card ∧
        (send_agent_message env message agent_type c).2.1.agent_cards =
          setEntry c.agent_cards arn card) ∧
    (∀ env message arn card c4, alookup c4.agent_cards arn = some card →
      cardPhase env message arn c4 = sendPhase env message c4 0) := by
  refine ⟨?_, ?_, ?_, ?_, ?_, ?_⟩
  · intro env c m ha hd
    simp [get_cached_config, ha, hd]
  · intro env c d m ha hd hb
    simp [get_cached_config, ha, hd, hb]
  · intro env c m ha hcn hs
    obtain ⟨cc, arns, cards, hcl⟩ := c
    simp only at ha hcn
    subst hcn
    simp [get_cached_config, ha, hs]
  · intro env env2 c cfg ha hcs
    refine ⟨get_cached_config_populated env c cfg ha hcs, ?_⟩
    rw [get_cached_config_populated env c cfg ha hcs,
      get_cached_config_populated env2 c cfg ha hcs]
  · intro env message agent_type c
    exact send_cards_evolution env message agent_type c
  · intro env message arn card c4 hhit
    exact cardPhase_hit env message arn card c4 hhit

/-- C6 witness: a failing SSM parameter fetch on a cold cache leaves the
cache exactly as it was. -/
theorem c6_witness :
    get_cached_config { envHappy with ssmDocs := Except.error "ssm down" } emptyCache =
      (Except.error (PyExc.other "ssm down"), emptyCache) :=
  c6_caches_failure_safe_and_memoized.1
    { envHappy with ssmDocs := Except.error "ssm down" } emptyCache "ssm down" rfl rfl

end Orchestrator

namespace Orchestrator

/-! ## Claim C8: the card cache is not stampede-safe -/

/-- C8 counterexample: the schedule in which both concurrent callers run
their membership check before either fetch completes starts two fetches
for the same endpoint — the unguarded check-then-act around the `await`
does not prevent the cache stampede the claim asserts. -/
theorem c8_counterexample :
    ¬ (runSched [false, true] initCardSys).fetchCount ≤ 1 := by
  decide

/-- C8 (amended): the card-cache population is an unguarded check-then-act
with a suspension point between check and store, so each concurrent caller
that observes the empty slot starts its own fetch: across the two
modelled callers any interleaving starts at most one fetch per caller
(two in total, and the counterexample schedule reaches two); only when
the callers are serialized — the first stores its card before the second
checks — is the fetch performed exactly once. -/
theorem c8_amended_one_fetch_per_caller :
    (∀ sched : List Bool, (runSched sched initCardSys).fetchCount ≤ 2) ∧
    (runSched [false, false, true, true] initCardSys).fetchCount = 1 := by
  constructor
  · intro sched
    have h := runSched_inv sched initCardSys (by simp [cardInv, initCardSys, taskContrib])
    unfold cardInv at h
    have h0 := taskContrib_le_one (runSched sched initCardSys).pc0
    have h1 := taskContrib_le_one (runSched sched initCardSys).pc1
    omega
  · decide

end Orchestrator

namespace Orchestrator

/-! ## Claim C9: headers are installed on the shared client and persist -/

/-- C9: a `send_agent_message` call that reaches line 97 mutates the
process-wide client itself: after the call, the cached shared client's
default headers contain this call's `Authorization` bearer token and
session-correlation identifier — the mutation persists in the cache
beyond the call rather than being scoped to one request — and a later
call through the same cache overwrites both headers with its own
values. -/
theorem c9_shared_client_header_mutation (env1 env2 : Env)
    (m1 m2 a1 a2 arn1 arn2 tok1 tok2 : String)
    (cfg : String × String) (c : Cache)
    (ha : c.agent_arns.isEmpty = false)
    (hc : c.cognito_config = some cfg)
    (hl1 : alookup c.agent_arns a1 = some arn1)
    (hr1 : env1.reauth cfg = Except.ok tok1)
    (hl2 : alookup c.agent_arns a2 = some arn2)
    (hr2 : env2.reauth cfg = Except.ok tok2) :
    ∃ hs1 hs2,
      (send_agent_message env1 m1 a1 c).2.1.http_client = some ⟨hs1⟩ ∧
      alookup hs1 "Authorization" = some ("Bearer " ++ tok1) ∧
      alookup hs1 "X-Amzn-Bedrock-AgentCore-Runtime-Session-Id" = some env1.sessionId ∧
      (send_agent_message env2 m2 a2
        ((send_agent_message env1 m1 a1 c).2.1)).2.1.http_client = some ⟨hs2⟩ ∧
      alookup hs2 "Authorization" = some ("Bearer " ++ tok2) ∧
      alookup hs2 "X-Amzn-Bedrock-AgentCore-Runtime-Session-Id" = some env2.sessionId := by
  obtain ⟨hs1, hh1, hauth1, hsess1, harns1, hcfg1⟩ :=
    send_installs_headers env1 m1 a1 arn1 tok1 cfg c ha hl1 hc hr1
  have ha2 : ((send_agent_message env1 m1 a1 c).2.1).agent_arns.isEmpty = false := by
    rw [harns1]; exact ha
  have hc2 : ((send_agent_message env1 m1 a1 c).2.1).cognito_config = some cfg := by
    rw [hcfg1]; exact hc
  have hl2b : alookup ((send_agent_message env1 m1 a1 c).2.1).agent_arns a2 = some arn2 := by
    rw [harns1]; exact hl2
  obtain ⟨hs2, hh2, hauth2, hsess2, _, _⟩ :=
    send_installs_headers env2 m2 a2 arn2 tok2 cfg
      ((send_agent_message env1 m1 a1 c).2.1) ha2 hl2b hc2 hr2
  exact ⟨hs1, hs2, hh1, hauth1, hsess1, hh2, hauth2, hsess2⟩

/-- C9 witness: two consecutive calls through the shared cache; the
second call's token and session id replace the first's on the shared
client. -/
theorem c9_witness :
    ∃ hs1 hs2,
      (send_agent_message envHappy "q1" "docs" cacheWarm).2.1.http_client = some ⟨hs1⟩ ∧
      alookup hs1 "Authorization" = some ("Bearer " ++ "tok") ∧
      alookup hs1 "X-Amzn-Bedrock-AgentCore-Runtime-Session-Id" = some envHappy.sessionId ∧
      (send_agent_message { envHappy with reauth := fun _ => Except.ok "tok2", sessionId := "sid2" }
        "q2" "blogs" ((send_agent_message envHappy "q1" "docs" cacheWarm).2.1)).2.1.http_client
        = some ⟨hs2⟩ ∧
      alookup hs2 "Authorization" = some ("Bearer " ++ "tok2") ∧
      alookup hs2 "X-Amzn-Bedrock-AgentCore-Runtime-Session-Id" =
        some ({ envHappy with reauth := fun _ => Except.ok "tok2", sessionId := "sid2" } : Env).sessionId :=
  c9_shared_client_header_mutation envHappy
    { envHappy with reauth := fun _ => Except.ok "tok2", sessionId := "sid2" }
    "q1" "q2" "docs" "blogs" "arnD" "arnB" "tok" "tok2" ("cid", "csec") cacheWarm
    rfl rfl (by decide) rfl (by decide) rfl

end Orchestrator

namespace Orchestrator

/-! ## Claim C10: a silent stream yields the misleading timeout string -/

/-- C10: if the downstream stream completes within the 10-second deadline
without yielding any `Message` or 2-tuple event, `send_agent_message`
falls through the loop and returns the string
`"Timeout: No response received"` — a Timeout-worded result produced even
though no timeout fired. -/
theorem c10_silent_stream_timeout_string (env : Env) (message agent_type arn tok card : String)
    (cfg : String × String) (c : Cache)
    (ha : c.agent_arns.isEmpty = false)
    (hl : alookup c.agent_arns agent_type = some arn)
    (hc : c.cognito_config = some cfg)
    (hr : env.reauth cfg = Except.ok tok)
    (hcard : alookup c.agent_cards arn = some card ∨
      (alookup c.agent_cards arn = none ∧ env.cardFetchTime ≤ CARD_FETCH_TIMEOUT ∧
        env.cardFetch (runtimeUrl env arn) = Except.ok card))
    (hfast : env.sendTime ≤ AGENT_TIMEOUT)
    (hall : ∀ e ∈ env.sendEvents, e = Event.otherEvent) :
    (send_agent_message env message agent_type c).1 = "Timeout: No response received" := by
  rw [send_result_of_reach env message agent_type arn tok card cfg c ha hl hc hr hcard hfast]
  exact processEvents_all_other env.sendEvents hall

/-- C10 witness: a stream of one non-decisive event ends in the sentinel
string. -/
theorem c10_witness :
    (send_agent_message { envHappy with sendEvents := [Event.otherEvent] }
      "hi" "docs" cacheWarm).1 = "Timeout: No response received" :=
  c10_silent_stream_timeout_string { envHappy with sendEvents := [Event.otherEvent] }
    "hi" "docs" "arnD" "tok" "cardD" ("cid", "csec") cacheWarm
    rfl (by decide) rfl rfl (Or.inl (by decide)) (by decide) (by decide)

end Orchestrator
